import Mathlib

/-!
Verification of the EchoNote chatbot view (`src/src/components/Signup.jsx`,
`Chatbot` component): the transcript segmenter `splitIntoSpeakerParagraphs`,
the query classifier `isTranscriptQuery`, the dispatch logic `askOllama` /
`handleSend` / `handleQuestionClick` / `handleShowTranscript`, and the
meeting-selection flow `fetchTranscript` / `fetchUserMeetings`.

Strings are modelled as `List Char` (ASCII-faithful for every character the
code manipulates).  JavaScript semantics that matter here are embedded
explicitly:

* `String.prototype.trim` / `toLowerCase` (ASCII range);
* `String.prototype.includes`;
* `replace(/\r\n/g, ...)` and `replace(/\n+/g, ...)` (global, left-to-right,
  non-overlapping, greedy);
* `split` with the zero-width lookahead separator
  `/(?=(?:Speaker\s*\d+:)|(?:[A-Za-z][A-Za-z0-9 .,-]+:))/g` (where the comma
  stands for the apostrophe character, code 39, in this comment): per the
  ECMAScript `RegExp [Symbol.split]` algorithm the string is cut at every
  position `q > 0` at which the lookahead matches;
* `split(/\n{2,}/)`: separators are the maximal runs of two or more
  newlines.
-/

/-- JavaScript whitespace (ASCII part): space, tab, LF, VT, FF, CR. -/
def isJsWS (c : Char) : Bool :=
  c.toNat = 32 || c.toNat = 9 || c.toNat = 10 || c.toNat = 11 || c.toNat = 12 || c.toNat = 13

/-- `String.prototype.toLowerCase`, ASCII range: maps A-Z to a-z. -/
def jsToLower (c : Char) : Char :=
  if 65 ≤ c.toNat ∧ c.toNat ≤ 90 then Char.ofNat (c.toNat + 32) else c

/-- Lowercase an entire string. -/
def jsLower (s : List Char) : List Char := s.map jsToLower

/-- Drop leading JS whitespace. -/
def trimLeft (s : List Char) : List Char := s.dropWhile isJsWS

/-- Drop trailing JS whitespace. -/
def trimRight (s : List Char) : List Char := (s.reverse.dropWhile isJsWS).reverse

/-- `String.prototype.trim`. -/
def jsTrim (s : List Char) : List Char := trimRight (trimLeft s)

/-- `s` starts with `pat`. -/
def startsL : List Char → List Char → Bool
  | _, [] => true
  | [], _ :: _ => false
  | c :: cs, p :: ps => c == p && startsL cs ps

/-- `String.prototype.includes`: `pat` occurs as a contiguous substring of `s`. -/
def containsSub (s pat : List Char) : Bool :=
  startsL s pat ||
    (match s with
     | [] => false
     | _ :: cs => containsSub cs pat)

/-- `text.replace(/\r\n/g, '\n')`: left-to-right, non-overlapping. -/
def replCRLF : List Char → List Char
  | [] => []
  | c :: rest =>
    match rest with
    | [] => [c]
    | d :: rest2 =>
      if c = '\r' ∧ d = '\n' then '\n' :: replCRLF rest2 else c :: replCRLF (d :: rest2)

mutual

/-- `p.replace(/\n+/g, ' ')`: each maximal run of newlines becomes one space. -/
def collapseNL : List Char → List Char
  | [] => []
  | c :: rest => if c = '\n' then ' ' :: collapseNLTail rest else c :: collapseNL rest

/-- After a newline was replaced: swallow the rest of the newline run. -/
def collapseNLTail : List Char → List Char
  | [] => []
  | c :: rest => if c = '\n' then collapseNLTail rest else c :: collapseNL rest

end

/-- Regex class `[A-Za-z]`. -/
def isAlphaChar (c : Char) : Bool :=
  (65 ≤ c.toNat && c.toNat ≤ 90) || (97 ≤ c.toNat && c.toNat ≤ 122)

/-- Regex class `\d`. -/
def isDigitChar (c : Char) : Bool := 48 ≤ c.toNat && c.toNat ≤ 57

/-- The character class of the name pattern: letters, digits, space,
dot, apostrophe (39), hyphen (45). -/
def isNameClass (c : Char) : Bool :=
  isAlphaChar c || isDigitChar c || c.toNat = 32 || c.toNat = 46 || c.toNat = 39 || c.toNat = 45

/-- The list begins with a colon (58). -/
def colonAt : List Char → Bool
  | c :: _ => c.toNat = 58
  | [] => false

/-- Regex `[A-Za-z0-9 .'-]+:` matches at the start of the list:
one or more class characters followed by a colon. -/
def classThenColon : List Char → Bool
  | [] => false
  | c :: rest => isNameClass c && (colonAt rest || classThenColon rest)

/-- Regex `[A-Za-z][A-Za-z0-9 .'-]+:` matches at the start of the list. -/
def nameLabelAt : List Char → Bool
  | [] => false
  | c :: rest => isAlphaChar c && classThenColon rest

/-- Regex `\d+:` matches at the start of the list. -/
def digitsThenColon : List Char → Bool
  | [] => false
  | c :: rest => isDigitChar c && (colonAt rest || digitsThenColon rest)

/-- Regex `Speaker\s*\d+:` matches at the start of the list. -/
def speakerLabelAt (l : List Char) : Bool :=
  startsL l ("Speaker".toList) && digitsThenColon ((l.drop 7).dropWhile isJsWS)

/-- The split lookahead `(?=(?:Speaker\s*\d+:)|(?:[A-Za-z][A-Za-z0-9 .'-]+:))`
matches at the start of the list. -/
def lookMatch (l : List Char) : Bool := speakerLabelAt l || nameLabelAt l

/-- ECMAScript `split` with the zero-width lookahead separator: cut at every
position `q > 0` where the lookahead matches.  `acc` is the current piece,
reversed. -/
def splitLAGo (acc : List Char) : List Char → List (List Char)
  | [] => [acc.reverse]
  | c :: rest =>
    if acc ≠ [] ∧ lookMatch (c :: rest) = true then acc.reverse :: splitLAGo [c] rest
    else splitLAGo (c :: acc) rest

/-- `norm.split(/(?=(?:Speaker\s*\d+:)|(?:[A-Za-z][A-Za-z0-9 .'-]+:))/g)`. -/
def jsSplitLookahead (s : List Char) : List (List Char) := splitLAGo [] s

/-- Worker for `split(/\n{2,}/)`: `acc` is the current piece (reversed) up to
the pending newline run, `nl` the length of that pending run.  A run of two
or more newlines is a separator (dropped, ends the piece); a single newline
stays inside the piece. -/
def goBlank (acc : List Char) (nl : Nat) : List Char → List (List Char)
  | [] =>
    if 2 ≤ nl then [acc.reverse, []] else [(List.replicate nl '\n' ++ acc).reverse]
  | c :: rest =>
    if c = '\n' then goBlank acc (nl + 1) rest
    else if 2 ≤ nl then acc.reverse :: goBlank [c] 0 rest
    else goBlank (c :: (List.replicate nl '\n' ++ acc)) 0 rest

/-- `norm.split(/\n{2,}/)`. -/
def splitBlank (s : List Char) : List (List Char) := goBlank [] 0 s

/-- The transcript segmenter, `splitIntoSpeakerParagraphs` from the source:
normalize CRLF, trim, split before speaker labels via the lookahead; if that
yields at most one non-empty trimmed piece, split on blank lines instead;
finally collapse interior newline runs to spaces and trim each piece. -/
def splitIntoSpeakerParagraphs (text : List Char) : List (List Char) :=
  if text.isEmpty then []
  else
    let norm := jsTrim (replCRLF text)
    let parts := ((jsSplitLookahead norm).map jsTrim).filter (fun p => !p.isEmpty)
    if parts.length ≤ 1 then
      ((splitBlank norm).map (fun p => jsTrim (collapseNL p))).filter (fun p => !p.isEmpty)
    else
      parts.map (fun p => jsTrim (collapseNL p))

/-- The trigger-phrase list of `isTranscriptQuery` (the identical array is
repeated inline in `askOllama`). -/
def transcriptTriggers : List (List Char) :=
  ["show transcript", "display transcript", "show me the transcript",
   "display the transcript", "view transcript", "see transcript",
   "full transcript", "entire transcript", "whole transcript",
   "read transcript", "give me transcript", "get transcript",
   "transcript please", "show full", "transcript", "trans", "show trans"].map String.toList

/-- The misspelling list of `isTranscriptQuery` (repeated inline in
`askOllama`). -/
def transcriptMisspellings : List (List Char) :=
  ["transciot", "transcipt", "transcipt", "transciipt", "transciot"].map String.toList

/-- The classifier body shared by `isTranscriptQuery` and the inline check in
`askOllama`: substring tests of the trigger and misspelling lists against the
trimmed, lowercased question, plus the two exact-equality checks. -/
def transcriptCore (qLower : List Char) : Bool :=
  transcriptTriggers.any (fun t => containsSub qLower t) ||
  transcriptMisspellings.any (fun m => containsSub qLower m) ||
  qLower == "transcript".toList || qLower == "trans".toList

/-- The query classifier `isTranscriptQuery` from the source. -/
def isTranscriptQuery (q : List Char) : Bool :=
  if q.isEmpty then false else transcriptCore (jsLower (jsTrim q))

/-- Message sender. -/
inductive Sender
  | user
  | bot
deriving DecidableEq, Repr

/-- A chat message: sender, text, and the display-formatted time (modelled as
the abstract clock reading at creation). -/
structure Msg where
  sender : Sender
  text : List Char
  time : Nat
deriving DecidableEq, Repr

/-- One question/answer pair of the transmitted chat history. -/
structure QA where
  question : List Char
  answer : List Char
deriving DecidableEq, Repr

/-- The JSON body of the `POST /api/chat` request. -/
structure ChatRequest where
  transcript : List Char
  question : List Char
  chat_history : List QA
  model_name : List Char
deriving DecidableEq, Repr

/-- The outcome of the `/api/chat` round trip: a thrown network/parse error,
or a response with its 401 flag and the `error` and `answer` fields of the
parsed JSON (`[]` modelling an absent or empty field, both falsy in JS). -/
inductive ChatOutcome
  | netError
  | resp (status401 : Bool) (error : List Char) (answer : List Char)
deriving DecidableEq, Repr

/-- The state of the `Chatbot` component together with the localStorage
credentials it touches. -/
structure ChatState where
  isLoggedIn : Bool
  token : Option (List Char)
  userCred : Option (List Char)
  meetings : List (List Char × List Char)
  selectedMeeting : List Char
  selectedTranscript : List Char
  suggestedQuestions : List (List Char)
  messages : List Msg
  input : List Char
deriving DecidableEq, Repr

/-- The `initialQuestions` constant. -/
def initialQuestions : List (List Char) :=
  ["What were the main action items?",
   "Who is responsible for mobile optimization?",
   "What decisions were made?",
   "When is the follow-up meeting?"].map String.toList

/-- The `contextQuestions` constant of `updateSuggestedQuestions`. -/
def contextQuestions : List (List Char) :=
  ["What were the main topics discussed?",
   "Can you summarize this meeting?",
   "What action items were mentioned?",
   "Who participated in this meeting?"].map String.toList

/-- The greeting message text produced by `fetchTranscript` on success. -/
def greetingText (meetingName : List Char) : List Char :=
  "Great! I've loaded the transcript for \"".toList ++ meetingName ++
    "\". You can ask me questions about this meeting, or use the suggested questions below.".toList

/-- The fixed fallback reply of `askOllama` when no transcript is loaded. -/
def noTranscriptText : List Char :=
  "Please select a meeting from the dropdown above to start asking questions.".toList

/-- The error reply of `askOllama` when the fetch throws. -/
def ollamaErrorText : List Char :=
  "Sorry, I encountered an error. Please make sure Ollama is running and try again.".toList

/-- The `Error: ` text prepended to a backend-reported error message. -/
def errorHead : List Char := "Error: ".toList

/-- The texts filtered out of the history (`thanks` variants). -/
def thanksTexts : List (List Char) :=
  ["thanks", "thank you", "thank u"].map String.toList

/-- The fixed model identifier sent with every chat request. -/
def modelNameText : List Char := "gemma:2b".toList

/-- `messages.filter(msg => msg.sender === "user" && !thanks.includes(msg.text.toLowerCase()))`:
note the filter lowercases but does not trim. -/
def filteredMessages (msgs : List Msg) : List Msg :=
  msgs.filter (fun m => m.sender == Sender.user && !(thanksTexts.contains (jsLower m.text)))

/-- The history-building loop of `askOllama`: consecutive disjoint pairs of
the filtered messages, the first of each pair as question, the second as
answer. -/
def pairUp : List Msg → List QA
  | a :: b :: rest => ⟨a.text, b.text⟩ :: pairUp rest
  | _ => []

/-- A message constructor: sender, text, current clock. -/
def mkMsg (s : Sender) (t : List Char) (now : Nat) : Msg := ⟨s, t, now⟩

/-- Result of `askOllama`: the returned value (`none` models `null`), the
chat request transmitted (if the fetch was reached), and whether the session
was cleared / a redirect to the login page was issued. -/
structure AskOut where
  result : Option (List Char)
  request : Option ChatRequest
  clearSession : Bool
  navLogin : Bool
deriving DecidableEq, Repr

/-- `askOllama` from the source: fallback reply when no transcript is loaded;
verbatim newline-collapsed transcript when the inline trigger check fires;
otherwise a round trip to `/api/chat` whose body carries the transcript, the
question, the paired-up filtered history and the model name, handling 401,
error payloads and thrown errors as the source does. -/
def askOllama (transcript : List Char) (msgs : List Msg) (question : List Char)
    (outcome : ChatOutcome) : AskOut :=
  if transcript.isEmpty then ⟨some noTranscriptText, none, false, false⟩
  else if transcriptCore (jsLower (jsTrim question)) then
    ⟨some (collapseNL transcript), none, false, false⟩
  else
    let req : ChatRequest := ⟨transcript, question, pairUp (filteredMessages msgs), modelNameText⟩
    match outcome with
    | ChatOutcome.netError => ⟨some ollamaErrorText, some req, false, false⟩
    | ChatOutcome.resp true _ _ => ⟨none, some req, true, true⟩
    | ChatOutcome.resp false e a =>
      if e.isEmpty then ⟨some a, some req, false, false⟩
      else ⟨some (errorHead ++ e), some req, false, false⟩

/-- Shared tail of `handleSend` and `handleQuestionClick`: append the user
message, hide suggestions, run `askOllama` against the pre-append message
list (the stale closure value), apply its session effects, and append the bot
message(s) when the returned value is truthy. -/
def dispatchQuestion (st : ChatState) (question : List Char) (clearInput : Bool)
    (outcome : ChatOutcome) (now : Nat) : ChatState × Bool :=
  let st1 : ChatState :=
    { st with messages := st.messages ++ [mkMsg Sender.user question now],
              input := if clearInput then [] else st.input,
              suggestedQuestions := [] }
  let out := askOllama st.selectedTranscript st.messages question outcome
  let st2 : ChatState :=
    if out.clearSession then
      { st1 with token := none, userCred := none, isLoggedIn := false }
    else st1
  let st3 : ChatState :=
    match out.result with
    | none => st2
    | some a =>
      if a.isEmpty then st2
      else if isTranscriptQuery question then
        { st2 with messages :=
            st2.messages ++ (splitIntoSpeakerParagraphs a).map (fun p => mkMsg Sender.bot p now) }
      else
        { st2 with messages := st2.messages ++ [mkMsg Sender.bot a now] }
  (st3, out.navLogin)

/-- `handleSend` from the source: guard on login and non-blank input, then
dispatch the typed question (clearing the input box). The returned Bool is
the navigate-to-login side effect. -/
def handleSend (st : ChatState) (outcome : ChatOutcome) (now : Nat) : ChatState × Bool :=
  if !st.isLoggedIn then (st, true)
  else if (jsTrim st.input).isEmpty then (st, false)
  else dispatchQuestion st st.input true outcome now

/-- `handleQuestionClick` from the source: guard on login, then dispatch the
clicked suggested question (input box untouched). -/
def handleQuestionClick (st : ChatState) (q : List Char) (outcome : ChatOutcome)
    (now : Nat) : ChatState × Bool :=
  if !st.isLoggedIn then (st, true)
  else dispatchQuestion st q false outcome now

/-- `handleShowTranscript` from the source: append one bot message per
segment of the segmenter applied to the loaded transcript. -/
def handleShowTranscript (st : ChatState) (now : Nat) : ChatState × Bool :=
  if !st.isLoggedIn then (st, true)
  else if st.selectedTranscript.isEmpty then (st, false)
  else
    ({ st with
        messages := st.messages ++
          (splitIntoSpeakerParagraphs st.selectedTranscript).map (fun p => mkMsg Sender.bot p now),
        suggestedQuestions := [] }, false)

/-- Outcome of the `GET /api/meeting/<id>` round trip. -/
inductive TranscriptFetchOutcome
  | netError
  | resp401
  | httpError
  | success (transcript : List Char) (meetingName : List Char)
deriving DecidableEq, Repr

/-- `fetchTranscript` from the source: on success replace the transcript,
reset the log to the single greeting message and set the suggested questions
(`updateSuggestedQuestions`); on 401 clear the session and redirect; on a
thrown error clear only the transcript; on a non-ok non-401 response do
nothing. -/
def fetchTranscript (st : ChatState) (outcome : TranscriptFetchOutcome) (now : Nat) :
    ChatState × Bool :=
  match outcome with
  | TranscriptFetchOutcome.resp401 =>
    ({ st with token := none, userCred := none, isLoggedIn := false }, true)
  | TranscriptFetchOutcome.success t name =>
    ({ st with selectedTranscript := t,
               messages := [mkMsg Sender.bot (greetingText name) now],
               suggestedQuestions := if t.isEmpty then initialQuestions else contextQuestions },
     false)
  | TranscriptFetchOutcome.netError => ({ st with selectedTranscript := [] }, false)
  | TranscriptFetchOutcome.httpError => (st, false)

/-- A meeting-selection event: `handleMeetingChange` followed by the
`selectedMeeting` effect — an empty id clears the transcript and restores the
default suggested questions, a non-empty id runs `fetchTranscript`. -/
def selectMeeting (st : ChatState) (mid : List Char) (outcome : TranscriptFetchOutcome)
    (now : Nat) : ChatState × Bool :=
  if !st.isLoggedIn then (st, true)
  else
    let st1 : ChatState := { st with selectedMeeting := mid }
    if mid.isEmpty then
      ({ st1 with selectedTranscript := [], suggestedQuestions := initialQuestions }, false)
    else fetchTranscript st1 outcome now

/-- Outcome of the `GET /api/user_meetings` round trip. -/
inductive MeetingsFetchOutcome
  | netError
  | resp401
  | httpError
  | success (ms : List (List Char × List Char))
deriving DecidableEq, Repr

/-- `fetchUserMeetings` from the source. -/
def fetchUserMeetings (st : ChatState) (outcome : MeetingsFetchOutcome) : ChatState × Bool :=
  match outcome with
  | MeetingsFetchOutcome.resp401 =>
    ({ st with token := none, userCred := none, isLoggedIn := false }, true)
  | MeetingsFetchOutcome.success ms => ({ st with meetings := ms }, false)
  | MeetingsFetchOutcome.netError => ({ st with meetings := [] }, false)
  | MeetingsFetchOutcome.httpError => (st, false)

/-- Every operation of the conversational view that can run within a
session. -/
inductive Op
  | send (outcome : ChatOutcome)
  | clickQuestion (q : List Char) (outcome : ChatOutcome)
  | showFullTranscript
  | chooseMeeting (mid : List Char) (outcome : TranscriptFetchOutcome)
  | loadMeetings (outcome : MeetingsFetchOutcome)
  | typeInput (s : List Char)
  | focusInput
deriving Repr

/-- One step of the conversational view. -/
def step (st : ChatState) (op : Op) (now : Nat) : ChatState × Bool :=
  match op with
  | Op.send outcome => handleSend st outcome now
  | Op.clickQuestion q outcome => handleQuestionClick st q outcome now
  | Op.showFullTranscript => handleShowTranscript st now
  | Op.chooseMeeting mid outcome => selectMeeting st mid outcome now
  | Op.loadMeetings outcome => fetchUserMeetings st outcome
  | Op.typeInput s => ({ st with input := s }, false)
  | Op.focusInput =>
    if !st.isLoggedIn then (st, true) else ({ st with suggestedQuestions := [] }, false)

/-- The non-whitespace characters of a string, in order. -/
def filterNW (l : List Char) : List Char := l.filter (fun c => !isJsWS c)

theorem splitLAGo_flatten (l : List Char) :
    ∀ acc : List Char, (splitLAGo acc l).flatten = acc.reverse ++ l := by
  induction l with
  | nil => intro acc; simp [splitLAGo]
  | cons c rest ih =>
    intro acc
    simp only [splitLAGo]
    split
    · simp [ih]
    · rw [ih]; simp

theorem jsSplitLookahead_flatten (s : List Char) : (jsSplitLookahead s).flatten = s := by
  simpa using splitLAGo_flatten s []

theorem filterNW_dropWhile (l : List Char) : filterNW (l.dropWhile isJsWS) = filterNW l := by
  induction l with
  | nil => rfl
  | cons c rest ih =>
    by_cases h : isJsWS c
    · simp [filterNW, List.dropWhile_cons, h, List.filter_cons] at ih ⊢
      exact ih
    · simp [List.dropWhile_cons, h]

theorem filterNW_reverse (l : List Char) : filterNW l.reverse = (filterNW l).reverse := by
  simp [filterNW, List.filter_reverse]

theorem filterNW_trimLeft (l : List Char) : filterNW (trimLeft l) = filterNW l :=
  filterNW_dropWhile l

theorem filterNW_trimRight (l : List Char) : filterNW (trimRight l) = filterNW l := by
  rw [trimRight, filterNW_reverse, filterNW_dropWhile, filterNW_reverse, List.reverse_reverse]

theorem filterNW_jsTrim (l : List Char) : filterNW (jsTrim l) = filterNW l := by
  rw [jsTrim, filterNW_trimRight, filterNW_trimLeft]

theorem filterNW_collapseNL_both (l : List Char) :
    filterNW (collapseNL l) = filterNW l ∧ filterNW (collapseNLTail l) = filterNW l := by
  induction l with
  | nil => exact ⟨rfl, rfl⟩
  | cons c rest ih =>
    constructor
    · rw [collapseNL]
      split
      · rename_i hc
        subst hc
        have hsp : isJsWS ' ' = true := by decide
        have hnl : isJsWS '\n' = true := by decide
        simp [filterNW, List.filter_cons, hsp, hnl] at ih ⊢
        exact ih.2
      · rename_i hc
        simp only [filterNW, List.filter_cons] at ih ⊢
        rcases h : (!isJsWS c) <;> simp [h, ih.1]
    · rw [collapseNLTail]
      split
      · rename_i hc
        subst hc
        have hnl : isJsWS '\n' = true := by decide
        simp [filterNW, List.filter_cons, hnl] at ih ⊢
        exact ih.2
      · rename_i hc
        simp only [filterNW, List.filter_cons] at ih ⊢
        rcases h : (!isJsWS c) <;> simp [h, ih.1]

theorem filterNW_collapseNL (l : List Char) : filterNW (collapseNL l) = filterNW l :=
  (filterNW_collapseNL_both l).1

theorem filterNW_replCRLF (l : List Char) : filterNW (replCRLF l) = filterNW l := by
  induction l using replCRLF.induct with
  | case1 => rfl
  | case2 c => rfl
  | case3 c d rest2 h ih =>
    obtain ⟨hc, hd⟩ := h
    subst hc; subst hd
    have hcr : isJsWS '\r' = true := by decide
    have hnl : isJsWS '\n' = true := by decide
    simp [replCRLF, filterNW, List.filter_cons, hcr, hnl] at ih ⊢
    exact ih
  | case4 c d rest2 h ih =>
    simp only [replCRLF, if_neg h]
    simp only [filterNW, List.filter_cons] at ih ⊢
    rcases hc : (!isJsWS c) <;> simp [hc, ih]

theorem filterNW_append (a b : List Char) : filterNW (a ++ b) = filterNW a ++ filterNW b := by
  simp [filterNW, List.filter_append]

theorem filterNW_dropWhileNL (l : List Char) :
    filterNW (l.dropWhile (fun x => x == '\n')) = filterNW l := by
  induction l with
  | nil => rfl
  | cons c rest ih =>
    by_cases h : c = '\n'
    · subst h
      have hnl : isJsWS '\n' = true := by decide
      simp [List.dropWhile_cons, filterNW, List.filter_cons, hnl] at ih ⊢
      exact ih
    · simp [List.dropWhile_cons, h]

theorem filterNW_nil : filterNW [] = [] := rfl

theorem filterNW_replicate_nl (n : Nat) : filterNW (List.replicate n '\n') = [] := by
  induction n with
  | zero => rfl
  | succ n ih =>
    simp only [List.replicate_succ, filterNW, List.filter_cons,
      (by decide : isJsWS '\n' = true), Bool.not_true]
    simpa [filterNW] using ih

theorem goBlank_filterNW (l : List Char) : ∀ (acc : List Char) (nl : Nat),
    filterNW ((goBlank acc nl l).flatten) = filterNW acc.reverse ++ filterNW l := by
  induction l with
  | nil =>
    intro acc nl
    rw [goBlank]
    split
    · simp [filterNW_append, filterNW_nil]
    · simp [List.reverse_append, List.reverse_replicate, filterNW_append, filterNW_reverse,
        filterNW_replicate_nl, filterNW_nil]
  | cons c rest ih =>
    intro acc nl
    rw [goBlank]
    by_cases hc : c = '\n'
    · subst hc
      rw [if_pos rfl, ih]
      have hnl : isJsWS '\n' = true := by decide
      simp [filterNW, List.filter_cons, hnl]
    · rw [if_neg hc]
      split
      · rw [List.flatten_cons, filterNW_append, ih]
        rcases hws : isJsWS c <;> simp [filterNW, List.filter_cons, hws]
      · rw [ih]
        have hnl : isJsWS '\n' = true := by decide
        rw [List.reverse_cons, List.reverse_append, List.reverse_replicate, filterNW_append,
          filterNW_append]
        rcases hws : isJsWS c <;>
          simp [filterNW, List.filter_cons, hws, hnl, filterNW_reverse, filterNW_replicate_nl]

theorem splitBlank_filterNW (l : List Char) :
    filterNW ((splitBlank l).flatten) = filterNW l := by
  simpa [splitBlank] using goBlank_filterNW l [] 0

theorem flatten_filter_nonempty (L : List (List Char)) :
    (L.filter (fun p => !p.isEmpty)).flatten = L.flatten := by
  induction L with
  | nil => rfl
  | cons x xs ih =>
    by_cases h : x.isEmpty
    · have : x = [] := by cases x <;> simp_all
      subst this
      simpa [List.filter_cons] using ih
    · simp [List.filter_cons, h, List.flatten_cons, ih]

theorem filterNW_flatten_map_trim (L : List (List Char)) :
    filterNW ((L.map jsTrim).flatten) = filterNW L.flatten := by
  induction L with
  | nil => rfl
  | cons x xs ih =>
    simp [List.flatten_cons, filterNW_append, filterNW_jsTrim, ih]

theorem filterNW_flatten_map_trimCollapse (L : List (List Char)) :
    filterNW ((L.map (fun p => jsTrim (collapseNL p))).flatten) = filterNW L.flatten := by
  induction L with
  | nil => rfl
  | cons x xs ih =>
    simp [List.flatten_cons, filterNW_append, filterNW_jsTrim, filterNW_collapseNL, ih]

/-- C1: the claim states that the Segmenter on
`"John: Hi\nSarah: Hello there\nJohn: Let's start"` yields exactly
`["John: Hi", "Sarah: Hello there", "John: Let's start"]`.  The code instead
yields ten fragments: the lookahead `[A-Za-z][A-Za-z0-9 .'-]+:` also matches
at the interior positions of each name before the colon (`ohn:`, `hn:`,
`arah:`, ...), and ECMAScript `split` cuts at every such position.  This
theorem evaluates the segmenter at the claimed input and records that the
result differs from the claimed three-element sequence. -/
theorem C1_segmenter_example_bug :
    splitIntoSpeakerParagraphs ("John: Hi\nSarah: Hello there\nJohn: Let's start".toList) =
      ["J", "o", "hn: Hi", "S", "a", "r", "ah: Hello there", "J", "o",
        "hn: Let's start"].map String.toList ∧
    splitIntoSpeakerParagraphs ("John: Hi\nSarah: Hello there\nJohn: Let's start".toList) ≠
      ["John: Hi", "Sarah: Hello there", "John: Let's start"].map String.toList := by
  constructor
  · decide
  · decide

/-- C2 (amended): for every input containing at least one non-whitespace
character, the Segmenter returns a non-empty ordered sequence whose
concatenation, ignoring whitespace, preserves every original non-whitespace
character in source order — no text is dropped or duplicated.  (The claim as
stated — for every non-empty input — fails on whitespace-only inputs, see the
counterexample.) -/
theorem C2_segmenter_preserves_content (t : List Char) (h : filterNW t ≠ []) :
    splitIntoSpeakerParagraphs t ≠ [] ∧
    filterNW (splitIntoSpeakerParagraphs t).flatten = filterNW t := by
  have htE : t.isEmpty = false := by
    cases t with
    | nil => exact absurd rfl h
    | cons c r => rfl
  have hcontent : filterNW (jsTrim (replCRLF t)) = filterNW t := by
    rw [filterNW_jsTrim, filterNW_replCRLF]
  rw [splitIntoSpeakerParagraphs]
  simp only [htE, Bool.false_eq_true, if_false]
  split
  · constructor
    · intro hR
      have : filterNW
          ((((splitBlank (jsTrim (replCRLF t))).map
              (fun p => jsTrim (collapseNL p))).filter (fun p => !p.isEmpty)).flatten) =
          filterNW t := by
        rw [flatten_filter_nonempty, filterNW_flatten_map_trimCollapse, splitBlank_filterNW,
          hcontent]
      rw [hR] at this
      exact h this.symm
    · rw [flatten_filter_nonempty, filterNW_flatten_map_trimCollapse, splitBlank_filterNW,
        hcontent]
  · rename_i hlen
    constructor
    · intro hR
      have hlen2 := congrArg List.length hR
      rw [List.length_map] at hlen2
      simp only [List.length_nil] at hlen2
      omega
    · rw [filterNW_flatten_map_trimCollapse, flatten_filter_nonempty,
        filterNW_flatten_map_trim, jsSplitLookahead_flatten, hcontent]

/-- C2 counterexample: the single-space string is a non-empty input on which
the Segmenter returns the empty sequence, refuting the claim as stated. -/
theorem C2_counterexample_whitespace_input :
    " ".toList ≠ ([] : List Char) ∧ splitIntoSpeakerParagraphs (" ".toList) = [] := by
  constructor
  · decide
  · decide

/-- C2 witness: the amended theorem applied at the concrete input `"a"`. -/
theorem C2_witness :
    filterNW ("a".toList) ≠ [] ∧
    (splitIntoSpeakerParagraphs ("a".toList) ≠ [] ∧
      filterNW (splitIntoSpeakerParagraphs ("a".toList)).flatten = filterNW ("a".toList)) :=
  ⟨by decide, C2_segmenter_preserves_content ("a".toList) (by decide)⟩

theorem jsToLower_toNat (c : Char) (h : 65 ≤ c.toNat ∧ c.toNat ≤ 90) :
    (jsToLower c).toNat = c.toNat + 32 := by
  have hv : (c.toNat + 32).isValidChar := Or.inl (by omega)
  rw [jsToLower, if_pos h]
  unfold Char.ofNat
  rw [dif_pos hv]
  unfold Char.ofNatAux
  simp [Char.toNat, UInt32.toNat]

theorem jsToLower_idem (c : Char) : jsToLower (jsToLower c) = jsToLower c := by
  by_cases h : 65 ≤ c.toNat ∧ c.toNat ≤ 90
  · have h1 := jsToLower_toNat c h
    have h2 : ¬(65 ≤ (jsToLower c).toNat ∧ (jsToLower c).toNat ≤ 90) := by omega
    conv_lhs => rw [jsToLower]
    rw [if_neg h2]
  · have h0 : jsToLower c = c := by rw [jsToLower, if_neg h]
    rw [h0, h0]

theorem isJsWS_jsToLower (c : Char) : isJsWS (jsToLower c) = isJsWS c := by
  by_cases h : 65 ≤ c.toNat ∧ c.toNat ≤ 90
  · have h1 := jsToLower_toNat c h
    have hL : isJsWS (jsToLower c) = false := by
      simp only [isJsWS, h1, Bool.or_eq_false_iff, decide_eq_false_iff_not]
      omega
    have hR : isJsWS c = false := by
      simp only [isJsWS, Bool.or_eq_false_iff, decide_eq_false_iff_not]
      omega
    rw [hL, hR]
  · rw [jsToLower, if_neg h]

theorem jsLower_idem (s : List Char) : jsLower (jsLower s) = jsLower s := by
  induction s with
  | nil => rfl
  | cons c rest ih =>
    simp only [jsLower, List.map_cons] at ih ⊢
    rw [jsToLower_idem, ih]

theorem dropWhile_ws_map_lower (s : List Char) :
    (s.map jsToLower).dropWhile isJsWS = (s.dropWhile isJsWS).map jsToLower := by
  induction s with
  | nil => rfl
  | cons c rest ih =>
    by_cases h : isJsWS c
    · rw [List.map_cons, List.dropWhile_cons_of_pos (by rw [isJsWS_jsToLower]; exact h),
        List.dropWhile_cons_of_pos h, ih]
    · rw [List.map_cons,
        List.dropWhile_cons_of_neg (by rw [isJsWS_jsToLower]; simpa using h),
        List.dropWhile_cons_of_neg (by simpa using h), List.map_cons]

theorem trimLeft_map_lower (s : List Char) :
    trimLeft (jsLower s) = jsLower (trimLeft s) := dropWhile_ws_map_lower s

theorem trimRight_map_lower (s : List Char) :
    trimRight (jsLower s) = jsLower (trimRight s) := by
  simp only [trimRight, jsLower]
  rw [← List.map_reverse, dropWhile_ws_map_lower, List.map_reverse]

theorem jsTrim_jsLower (s : List Char) : jsTrim (jsLower s) = jsLower (jsTrim s) := by
  rw [jsTrim, trimLeft_map_lower, trimRight_map_lower, jsTrim]

theorem dropWhile_ws_idem (l : List Char) :
    (l.dropWhile isJsWS).dropWhile isJsWS = l.dropWhile isJsWS := by
  induction l with
  | nil => rfl
  | cons c rest ih =>
    by_cases h : isJsWS c
    · rw [List.dropWhile_cons_of_pos h, ih]
    · rw [List.dropWhile_cons_of_neg (by simpa using h),
        List.dropWhile_cons_of_neg (by simpa using h)]

theorem trimLeft_head_not_ws (l : List Char) :
    trimLeft l = [] ∨ ∃ c t, trimLeft l = c :: t ∧ isJsWS c = false := by
  induction l with
  | nil => exact Or.inl rfl
  | cons c rest ih =>
    by_cases h : isJsWS c
    · rw [trimLeft, List.dropWhile_cons_of_pos h]
      exact ih
    · refine Or.inr ⟨c, rest, ?_, by simpa using h⟩
      rw [trimLeft, List.dropWhile_cons_of_neg (by simpa using h)]

theorem trimLeft_of_head_not_ws (c : Char) (t : List Char) (h : isJsWS c = false) :
    trimLeft (c :: t) = c :: t := by
  rw [trimLeft, List.dropWhile_cons_of_neg (by simp [h])]

theorem trimRight_trimRight (l : List Char) : trimRight (trimRight l) = trimRight l := by
  simp only [trimRight, List.reverse_reverse]
  rw [dropWhile_ws_idem]

theorem trimRight_cons_head (c : Char) (t : List Char) (h : isJsWS c = false) :
    ∃ t', trimRight (c :: t) = c :: t' := by
  rw [trimRight, List.reverse_cons, List.dropWhile_append]
  split
  · rw [List.dropWhile_cons_of_neg (by simp [h])]
    exact ⟨[], by simp⟩
  · rw [List.reverse_append, List.reverse_cons, List.reverse_nil, List.nil_append,
      List.singleton_append]
    exact ⟨(t.reverse.dropWhile isJsWS).reverse, rfl⟩

theorem jsTrim_idem (s : List Char) : jsTrim (jsTrim s) = jsTrim s := by
  rcases trimLeft_head_not_ws s with h0 | ⟨c, t, h0, hc⟩
  · have hs : jsTrim s = [] := by
      rw [jsTrim, h0]
      rfl
    rw [hs]
    rfl
  · have hs : jsTrim s = trimRight (c :: t) := by rw [jsTrim, h0]
    obtain ⟨t', ht'⟩ := trimRight_cons_head c t hc
    rw [hs, ht', jsTrim, trimLeft_of_head_not_ws c t' hc, ← ht']
    exact trimRight_trimRight (c :: t)

/-- C3: the Query Classifier is invariant under trimming and lowercasing:
classifying any `s` equals classifying `jsLower (jsTrim s)`; in particular
`"Show Transcript"`, `"  show transcript  "` and `"SHOW TRANSCRIPT"` all
classify identically, as transcript requests. -/
theorem C3_classifier_trim_lower_invariant :
    (∀ s : List Char, isTranscriptQuery s = isTranscriptQuery (jsLower (jsTrim s))) ∧
    isTranscriptQuery ("Show Transcript".toList) = true ∧
    isTranscriptQuery ("  show transcript  ".toList) = true ∧
    isTranscriptQuery ("SHOW TRANSCRIPT".toList) = true := by
  refine ⟨?_, by decide, by decide, by decide⟩
  intro s
  match s with
  | [] => rfl
  | a :: s0 =>
    rw [isTranscriptQuery]
    have hne : (a :: s0).isEmpty = false := rfl
    rw [hne]
    simp only [Bool.false_eq_true, if_false]
    have key : jsLower (jsTrim (jsLower (jsTrim (a :: s0)))) = jsLower (jsTrim (a :: s0)) := by
      rw [jsTrim_jsLower, jsTrim_idem, jsLower_idem]
    rw [isTranscriptQuery]
    by_cases hs' : (jsLower (jsTrim (a :: s0))).isEmpty
    · rw [if_pos hs']
      have : jsLower (jsTrim (a :: s0)) = [] := by
        cases h : jsLower (jsTrim (a :: s0)) with
        | nil => rfl
        | cons x xs => rw [h] at hs'; exact absurd hs' (by simp)
      rw [this]
      decide
    · rw [if_neg hs', key]

theorem isEmpty_false_of_ne_nil {l : List Char} (h : l ≠ []) : l.isEmpty = false := by
  cases l with
  | nil => exact absurd rfl h
  | cons a t => rfl

theorem collapseNL_ne_nil {t : List Char} (h : t ≠ []) : collapseNL t ≠ [] := by
  cases t with
  | nil => exact absurd rfl h
  | cons c rest =>
    rw [collapseNL]
    split <;> simp

theorem transcriptCore_of_isTQ {q : List Char} (h : isTranscriptQuery q = true) :
    transcriptCore (jsLower (jsTrim q)) = true := by
  by_cases hq : q.isEmpty
  · rw [isTranscriptQuery, if_pos hq] at h
    exact absurd h (by simp)
  · rwa [isTranscriptQuery, if_neg hq] at h

theorem transcriptCore_of_not_isTQ {q : List Char} (hne : q ≠ [])
    (h : isTranscriptQuery q = false) : transcriptCore (jsLower (jsTrim q)) = false := by
  rwa [isTranscriptQuery, if_neg (by simp [isEmpty_false_of_ne_nil hne])] at h

/-- C4 (amended): with a non-empty transcript loaded, submitting a question
the classifier flags as a transcript request appends exactly one user message
followed by one bot message per element of the Segmenter applied to the
newline-collapsed transcript (the texts being exactly those segments, in
order), for any outcome of the external service (which is never consulted).
The claim as stated — one bot message per Segmenter output for the
transcript itself — fails, see the counterexample. -/
theorem C4_amended (st : ChatState) (o : ChatOutcome) (now : Nat)
    (hL : st.isLoggedIn = true) (hin : jsTrim st.input ≠ [])
    (hq : isTranscriptQuery st.input = true) (ht : st.selectedTranscript ≠ []) :
    (handleSend st o now).1.messages =
      st.messages ++ mkMsg Sender.user st.input now ::
        (splitIntoSpeakerParagraphs (collapseNL st.selectedTranscript)).map
          (fun p => mkMsg Sender.bot p now) := by
  have hcore := transcriptCore_of_isTQ hq
  have hEin : (jsTrim st.input).isEmpty = false := isEmpty_false_of_ne_nil hin
  have hEt : st.selectedTranscript.isEmpty = false := isEmpty_false_of_ne_nil ht
  have hEc : (collapseNL st.selectedTranscript).isEmpty = false :=
    isEmpty_false_of_ne_nil (collapseNL_ne_nil ht)
  simp [handleSend, dispatchQuestion, askOllama, hL, hEin, hEt, hEc, hcore, hq]

/-- C4 counterexample: with the loaded transcript `"Hello\n\nWorld"` and the
submitted question `"transcript"`, the code appends one bot message
(`"Hello World"`, the segmentation of the newline-collapsed transcript),
whereas the Segmenter applied to the loaded transcript yields the two
segments `["Hello", "World"]` — so the appended messages are not one per
Segmenter output for the transcript, refuting the claim as stated. -/
theorem C4_counterexample :
    (handleSend
        { isLoggedIn := true, token := some ("t".toList), userCred := some ("u".toList),
          meetings := [], selectedMeeting := "1".toList,
          selectedTranscript := "Hello\n\nWorld".toList, suggestedQuestions := [],
          messages := [], input := "transcript".toList }
        ChatOutcome.netError 0).1.messages =
      [mkMsg Sender.user ("transcript".toList) 0, mkMsg Sender.bot ("Hello World".toList) 0] ∧
    splitIntoSpeakerParagraphs ("Hello\n\nWorld".toList) = ["Hello".toList, "World".toList] ∧
    (handleSend
        { isLoggedIn := true, token := some ("t".toList), userCred := some ("u".toList),
          meetings := [], selectedMeeting := "1".toList,
          selectedTranscript := "Hello\n\nWorld".toList, suggestedQuestions := [],
          messages := [], input := "transcript".toList }
        ChatOutcome.netError 0).1.messages ≠
      [] ++ mkMsg Sender.user ("transcript".toList) 0 ::
        (splitIntoSpeakerParagraphs ("Hello\n\nWorld".toList)).map
          (fun p => mkMsg Sender.bot p 0) := by
  refine ⟨by decide, by decide, by decide⟩

/-- C4 witness: the amended theorem applied at a concrete state with
transcript `"A: x\nB: y"` and question `"show transcript"`. -/
theorem C4_witness :
    ({ isLoggedIn := true, token := some ("t".toList), userCred := none, meetings := [],
       selectedMeeting := "1".toList, selectedTranscript := "A: x\nB: y".toList,
       suggestedQuestions := [], messages := [], input := "show transcript".toList,
       : ChatState }).isLoggedIn = true ∧
    jsTrim ("show transcript".toList) ≠ [] ∧
    isTranscriptQuery ("show transcript".toList) = true ∧
    "A: x\nB: y".toList ≠ [] ∧
    (handleSend
        { isLoggedIn := true, token := some ("t".toList), userCred := none, meetings := [],
          selectedMeeting := "1".toList, selectedTranscript := "A: x\nB: y".toList,
          suggestedQuestions := [], messages := [], input := "show transcript".toList }
        (ChatOutcome.resp false [] []) 7).1.messages =
      [] ++ mkMsg Sender.user ("show transcript".toList) 7 ::
        (splitIntoSpeakerParagraphs (collapseNL ("A: x\nB: y".toList))).map
          (fun p => mkMsg Sender.bot p 7) :=
  ⟨rfl, by decide, by decide, by decide,
    C4_amended
      { isLoggedIn := true, token := some ("t".toList), userCred := none, meetings := [],
        selectedMeeting := "1".toList, selectedTranscript := "A: x\nB: y".toList,
        suggestedQuestions := [], messages := [], input := "show transcript".toList }
      (ChatOutcome.resp false [] []) 7 rfl (by decide) (by decide) (by decide)⟩

/-- C5 (amended): submitting an ordinary (non-transcript-request) question
appends the user message followed by at most one bot message: exactly one
carrying the fixed fallback string when no transcript is loaded, the fixed
error string on a thrown network error, the backend error surfaced behind
`Error: ` on a non-empty error payload, or the service's reply when it is
non-empty — and zero bot messages when the endpoint returns 401 or the reply
is empty.  (The claim as stated — always exactly one bot message — fails on
the 401 and empty-reply outcomes, see the counterexample.) -/
theorem C5_amended (st : ChatState) (o : ChatOutcome) (now : Nat)
    (hL : st.isLoggedIn = true) (hin : jsTrim st.input ≠ [])
    (hq : isTranscriptQuery st.input = false) :
    ∃ bots : List Msg,
      (handleSend st o now).1.messages =
        st.messages ++ mkMsg Sender.user st.input now :: bots ∧
      bots.length ≤ 1 ∧
      (st.selectedTranscript = [] → bots = [mkMsg Sender.bot noTranscriptText now]) ∧
      (st.selectedTranscript ≠ [] →
        match o with
        | ChatOutcome.netError => bots = [mkMsg Sender.bot ollamaErrorText now]
        | ChatOutcome.resp true _ _ => bots = []
        | ChatOutcome.resp false e a =>
          if e = [] then
            if a = [] then bots = [] else bots = [mkMsg Sender.bot a now]
          else bots = [mkMsg Sender.bot (errorHead ++ e) now]) := by
  have hqne : st.input ≠ [] := fun h => hin (by rw [h]; rfl)
  have hcore := transcriptCore_of_not_isTQ hqne hq
  have hEin := isEmpty_false_of_ne_nil hin
  by_cases ht : st.selectedTranscript = []
  · refine ⟨[mkMsg Sender.bot noTranscriptText now], ?_, by simp, fun _ => rfl,
      fun h => absurd ht h⟩
    have hEt : st.selectedTranscript.isEmpty = true := by rw [ht]; rfl
    simp [handleSend, dispatchQuestion, askOllama, hL, hEin, hEt, hq,
      (by decide : noTranscriptText.isEmpty = false)]
  · have hEt : st.selectedTranscript.isEmpty = false := isEmpty_false_of_ne_nil ht
    cases o with
    | netError =>
      refine ⟨[mkMsg Sender.bot ollamaErrorText now], ?_, by simp, fun h => absurd h ht,
        fun _ => rfl⟩
      simp [handleSend, dispatchQuestion, askOllama, hL, hEin, hEt, hcore, hq,
        (by decide : ollamaErrorText.isEmpty = false)]
    | resp s401 e a =>
      cases s401 with
      | true =>
        refine ⟨[], ?_, by simp, fun h => absurd h ht, fun _ => rfl⟩
        simp [handleSend, dispatchQuestion, askOllama, hL, hEin, hEt, hcore, hq]
      | false =>
        by_cases he : e = []
        · have hEe : e.isEmpty = true := by rw [he]; rfl
          by_cases ha : a = []
          · have hEa : a.isEmpty = true := by rw [ha]; rfl
            refine ⟨[], ?_, by simp, fun h => absurd h ht, fun _ => by simp [he, ha]⟩
            simp [handleSend, dispatchQuestion, askOllama, hL, hEin, hEt, hcore, hq, hEe, hEa]
          · have hEa : a.isEmpty = false := isEmpty_false_of_ne_nil ha
            refine ⟨[mkMsg Sender.bot a now], ?_, by simp, fun h => absurd h ht,
              fun _ => by simp [he, ha]⟩
            simp [handleSend, dispatchQuestion, askOllama, hL, hEin, hEt, hcore, hq, hEe, hEa]
        · have hEe : e.isEmpty = false := isEmpty_false_of_ne_nil he
          have hEerr : (errorHead ++ e).isEmpty = false := rfl
          refine ⟨[mkMsg Sender.bot (errorHead ++ e) now], ?_, by simp,
            fun h => absurd h ht, fun _ => by simp [he]⟩
          simp [handleSend, dispatchQuestion, askOllama, hL, hEin, hEt, hcore, hq, hEe, hEerr]

/-- C5 counterexample: for the ordinary question `"hello"` with a loaded
transcript, a 401 response and an empty-reply response each append zero bot
messages for the turn (the log receives only the user message), refuting
`never zero`. -/
theorem C5_counterexample_zero_bot_messages :
    (handleSend
        { isLoggedIn := true, token := some ("t".toList), userCred := some ("u".toList),
          meetings := [], selectedMeeting := "1".toList, selectedTranscript := "T".toList,
          suggestedQuestions := [], messages := [], input := "hello".toList }
        (ChatOutcome.resp true [] []) 0).1.messages =
      [mkMsg Sender.user ("hello".toList) 0] ∧
    (handleSend
        { isLoggedIn := true, token := some ("t".toList), userCred := some ("u".toList),
          meetings := [], selectedMeeting := "1".toList, selectedTranscript := "T".toList,
          suggestedQuestions := [], messages := [], input := "hello".toList }
        (ChatOutcome.resp false [] []) 0).1.messages =
      [mkMsg Sender.user ("hello".toList) 0] := by
  refine ⟨by decide, by decide⟩

/-- C5 witness: the amended theorem applied at a concrete state with no
transcript loaded. -/
theorem C5_witness :
    ({ isLoggedIn := true, token := some ("t".toList), userCred := none, meetings := [],
       selectedMeeting := [], selectedTranscript := [], suggestedQuestions := [],
       messages := [], input := "hello".toList, : ChatState }).isLoggedIn = true ∧
    jsTrim ("hello".toList) ≠ [] ∧
    isTranscriptQuery ("hello".toList) = false ∧
    (∃ bots : List Msg,
      (handleSend
          { isLoggedIn := true, token := some ("t".toList), userCred := none, meetings := [],
            selectedMeeting := [], selectedTranscript := [], suggestedQuestions := [],
            messages := [], input := "hello".toList }
          ChatOutcome.netError 3).1.messages =
        [] ++ mkMsg Sender.user ("hello".toList) 3 :: bots ∧
      bots.length ≤ 1 ∧
      (([] : List Char) = [] → bots = [mkMsg Sender.bot noTranscriptText 3]) ∧
      (([] : List Char) ≠ [] →
        match ChatOutcome.netError with
        | ChatOutcome.netError => bots = [mkMsg Sender.bot ollamaErrorText 3]
        | ChatOutcome.resp true _ _ => bots = []
        | ChatOutcome.resp false e a =>
          if e = [] then
            if a = [] then bots = [] else bots = [mkMsg Sender.bot a 3]
          else bots = [mkMsg Sender.bot (errorHead ++ e) 3])) :=
  ⟨rfl, by decide, by decide,
    C5_amended
      { isLoggedIn := true, token := some ("t".toList), userCred := none, meetings := [],
        selectedMeeting := [], selectedTranscript := [], suggestedQuestions := [],
        messages := [], input := "hello".toList }
      ChatOutcome.netError 3 rfl (by decide) (by decide)⟩

/-- C6 (amended): when the answer-query endpoint returns 401 for a submitted
ordinary question (the call is only reached with a transcript loaded), the
stored credentials (token and user) are cleared, the logged-in flag drops, a
navigation-to-login side effect is produced, and no bot message is appended
for that turn — but the user's own message was already appended before the
call, so the log grows by exactly that one user message.  (The claim as
stated — no Message appended for that turn — fails, see the
counterexample.) -/
theorem C6_amended (st : ChatState) (e a : List Char) (now : Nat)
    (hL : st.isLoggedIn = true) (hin : jsTrim st.input ≠ [])
    (hq : isTranscriptQuery st.input = false) (ht : st.selectedTranscript ≠ []) :
    (handleSend st (ChatOutcome.resp true e a) now).1.token = none ∧
    (handleSend st (ChatOutcome.resp true e a) now).1.userCred = none ∧
    (handleSend st (ChatOutcome.resp true e a) now).1.isLoggedIn = false ∧
    (handleSend st (ChatOutcome.resp true e a) now).2 = true ∧
    (handleSend st (ChatOutcome.resp true e a) now).1.messages =
      st.messages ++ [mkMsg Sender.user st.input now] := by
  have hqne : st.input ≠ [] := fun h => hin (by rw [h]; rfl)
  have hcore := transcriptCore_of_not_isTQ hqne hq
  have hEin := isEmpty_false_of_ne_nil hin
  have hEt : st.selectedTranscript.isEmpty = false := isEmpty_false_of_ne_nil ht
  refine ⟨?_, ?_, ?_, ?_, ?_⟩ <;>
    simp [handleSend, dispatchQuestion, askOllama, hL, hEin, hEt, hcore, hq]

/-- C6 counterexample: on a 401 response the Conversation Log does change for
that turn — the user message is appended — refuting `no Message is appended
to the Conversation Log for that turn`. -/
theorem C6_counterexample_user_message_appended :
    (handleSend
        { isLoggedIn := true, token := some ("t".toList), userCred := some ("u".toList),
          meetings := [], selectedMeeting := "1".toList, selectedTranscript := "T".toList,
          suggestedQuestions := [], messages := [], input := "hello".toList }
        (ChatOutcome.resp true [] []) 0).1.messages =
      [mkMsg Sender.user ("hello".toList) 0] ∧
    (handleSend
        { isLoggedIn := true, token := some ("t".toList), userCred := some ("u".toList),
          meetings := [], selectedMeeting := "1".toList, selectedTranscript := "T".toList,
          suggestedQuestions := [], messages := [], input := "hello".toList }
        (ChatOutcome.resp true [] []) 0).1.messages ≠
      ({ isLoggedIn := true, token := some ("t".toList), userCred := some ("u".toList),
         meetings := [], selectedMeeting := "1".toList, selectedTranscript := "T".toList,
         suggestedQuestions := [], messages := [], input := "hello".toList,
         : ChatState }).messages := by
  refine ⟨by decide, by decide⟩

/-- C6 witness: the amended theorem applied at a concrete state. -/
theorem C6_witness :
    ({ isLoggedIn := true, token := some ("t".toList), userCred := some ("u".toList),
       meetings := [], selectedMeeting := "1".toList, selectedTranscript := "T".toList,
       suggestedQuestions := [], messages := [], input := "hi there".toList,
       : ChatState }).isLoggedIn = true ∧
    jsTrim ("hi there".toList) ≠ [] ∧
    isTranscriptQuery ("hi there".toList) = false ∧
    "T".toList ≠ [] ∧
    ((handleSend
        { isLoggedIn := true, token := some ("t".toList), userCred := some ("u".toList),
          meetings := [], selectedMeeting := "1".toList, selectedTranscript := "T".toList,
          suggestedQuestions := [], messages := [], input := "hi there".toList }
        (ChatOutcome.resp true ("x".toList) []) 9).1.token = none ∧
      (handleSend
        { isLoggedIn := true, token := some ("t".toList), userCred := some ("u".toList),
          meetings := [], selectedMeeting := "1".toList, selectedTranscript := "T".toList,
          suggestedQuestions := [], messages := [], input := "hi there".toList }
        (ChatOutcome.resp true ("x".toList) []) 9).1.userCred = none ∧
      (handleSend
        { isLoggedIn := true, token := some ("t".toList), userCred := some ("u".toList),
          meetings := [], selectedMeeting := "1".toList, selectedTranscript := "T".toList,
          suggestedQuestions := [], messages := [], input := "hi there".toList }
        (ChatOutcome.resp true ("x".toList) []) 9).1.isLoggedIn = false ∧
      (handleSend
        { isLoggedIn := true, token := some ("t".toList), userCred := some ("u".toList),
          meetings := [], selectedMeeting := "1".toList, selectedTranscript := "T".toList,
          suggestedQuestions := [], messages := [], input := "hi there".toList }
        (ChatOutcome.resp true ("x".toList) []) 9).2 = true ∧
      (handleSend
        { isLoggedIn := true, token := some ("t".toList), userCred := some ("u".toList),
          meetings := [], selectedMeeting := "1".toList, selectedTranscript := "T".toList,
          suggestedQuestions := [], messages := [], input := "hi there".toList }
        (ChatOutcome.resp true ("x".toList) []) 9).1.messages =
        [] ++ [mkMsg Sender.user ("hi there".toList) 9]) :=
  ⟨rfl, by decide, by decide, by decide,
    C6_amended
      { isLoggedIn := true, token := some ("t".toList), userCred := some ("u".toList),
        meetings := [], selectedMeeting := "1".toList, selectedTranscript := "T".toList,
        suggestedQuestions := [], messages := [], input := "hi there".toList }
      ("x".toList) [] 9 rfl (by decide) (by decide) (by decide)⟩

/-- C7 (amended): when selecting a new meeting and the transcript fetch
succeeds, the Conversation Log is reset to exactly one greeting message and
the Suggested Question Set is replaced (the fixed context-aware set when a
non-empty transcript loads, the default set when the fetched transcript is
empty); clearing the selection restores the default set and empties the
transcript.  (The claim as stated — every selection resets the log — fails
when the fetch errors out, see the counterexample.) -/
theorem C7_amended :
    (∀ (st : ChatState) (mid t name : List Char) (now : Nat),
      st.isLoggedIn = true → mid ≠ [] →
      (selectMeeting st mid (TranscriptFetchOutcome.success t name) now).1.messages =
          [mkMsg Sender.bot (greetingText name) now] ∧
        (selectMeeting st mid (TranscriptFetchOutcome.success t name) now).1.suggestedQuestions =
          (if t.isEmpty then initialQuestions else contextQuestions) ∧
        (selectMeeting st mid (TranscriptFetchOutcome.success t name) now).1.selectedTranscript =
          t) ∧
    (∀ (st : ChatState) (o : TranscriptFetchOutcome) (now : Nat),
      st.isLoggedIn = true →
      (selectMeeting st [] o now).1.suggestedQuestions = initialQuestions ∧
        (selectMeeting st [] o now).1.selectedTranscript = []) := by
  constructor
  · intro st mid t name now hL hmid
    have hEm : mid.isEmpty = false := isEmpty_false_of_ne_nil hmid
    refine ⟨?_, ?_, ?_⟩ <;> simp [selectMeeting, fetchTranscript, hL, hEm]
  · intro st o now hL
    refine ⟨?_, ?_⟩ <;> simp [selectMeeting, hL]

/-- C7 counterexample: a meeting-selection event whose transcript fetch
throws leaves the two-message Conversation Log unchanged — the log is not
reset to a single greeting message, refuting the claim as stated. -/
theorem C7_counterexample_failed_fetch_keeps_log :
    (selectMeeting
        { isLoggedIn := true, token := some ("t".toList), userCred := some ("u".toList),
          meetings := [], selectedMeeting := [], selectedTranscript := [],
          suggestedQuestions := [],
          messages := [mkMsg Sender.bot ("hi".toList) 0, mkMsg Sender.user ("q".toList) 1],
          input := [] }
        ("7".toList) TranscriptFetchOutcome.netError 2).1.messages =
      [mkMsg Sender.bot ("hi".toList) 0, mkMsg Sender.user ("q".toList) 1] ∧
    (selectMeeting
        { isLoggedIn := true, token := some ("t".toList), userCred := some ("u".toList),
          meetings := [], selectedMeeting := [], selectedTranscript := [],
          suggestedQuestions := [],
          messages := [mkMsg Sender.bot ("hi".toList) 0, mkMsg Sender.user ("q".toList) 1],
          input := [] }
        ("7".toList) TranscriptFetchOutcome.netError 2).1.messages.length ≠ 1 := by
  refine ⟨by decide, by decide⟩

/-- C7 witness: the amended theorem applied at a concrete state, both on a
successful fetch of a non-empty transcript and on clearing the selection. -/
theorem C7_witness :
    ({ isLoggedIn := true, token := some ("t".toList), userCred := none, meetings := [],
       selectedMeeting := [], selectedTranscript := [], suggestedQuestions := [],
       messages := [], input := [], : ChatState }).isLoggedIn = true ∧
    "5".toList ≠ ([] : List Char) ∧
    ((selectMeeting
        { isLoggedIn := true, token := some ("t".toList), userCred := none, meetings := [],
          selectedMeeting := [], selectedTranscript := [], suggestedQuestions := [],
          messages := [], input := [] }
        ("5".toList) (TranscriptFetchOutcome.success ("T".toList) ("Standup".toList))
        4).1.messages = [mkMsg Sender.bot (greetingText ("Standup".toList)) 4] ∧
      (selectMeeting
        { isLoggedIn := true, token := some ("t".toList), userCred := none, meetings := [],
          selectedMeeting := [], selectedTranscript := [], suggestedQuestions := [],
          messages := [], input := [] }
        ("5".toList) (TranscriptFetchOutcome.success ("T".toList) ("Standup".toList))
        4).1.suggestedQuestions =
        (if ("T".toList).isEmpty then initialQuestions else contextQuestions) ∧
      (selectMeeting
        { isLoggedIn := true, token := some ("t".toList), userCred := none, meetings := [],
          selectedMeeting := [], selectedTranscript := [], suggestedQuestions := [],
          messages := [], input := [] }
        ("5".toList) (TranscriptFetchOutcome.success ("T".toList) ("Standup".toList))
        4).1.selectedTranscript = "T".toList) :=
  ⟨rfl, by decide,
    C7_amended.1
      { isLoggedIn := true, token := some ("t".toList), userCred := none, meetings := [],
        selectedMeeting := [], selectedTranscript := [], suggestedQuestions := [],
        messages := [], input := [] }
      ("5".toList) ("T".toList) ("Standup".toList) 4 rfl (by decide)⟩

theorem prefix_append_middle (l a b : List Msg) : l <+: (l ++ a) ++ b :=
  ⟨a ++ b, by rw [List.append_assoc]⟩

theorem dispatchQuestion_extends (st : ChatState) (now : Nat) (q : List Char) (clear : Bool)
    (o : ChatOutcome) : st.messages <+: (dispatchQuestion st q clear o now).1.messages := by
  rcases h1 : askOllama st.selectedTranscript st.messages q o with ⟨res, req, clr, nav⟩
  simp only [dispatchQuestion, h1]
  cases res with
  | none => cases clr <;> exact ⟨[mkMsg Sender.user q now], rfl⟩
  | some a =>
    cases clr <;> by_cases ha : a.isEmpty <;> by_cases hq : isTranscriptQuery q <;>
        simp only [ha, hq, if_true, if_false, Bool.false_eq_true, Bool.true_eq_false,
          ite_true, ite_false] <;>
      first
        | exact ⟨[mkMsg Sender.user q now], rfl⟩
        | exact prefix_append_middle _ _ _

/-- C8: across every operation of the conversational view, the Conversation
Log only grows — the previous log is a prefix of the new one — except that a
meeting selection may replace the whole log with a single greeting bot
message. -/
theorem C8_log_append_only (st : ChatState) (op : Op) (now : Nat) :
    st.messages <+: (step st op now).1.messages ∨
    ∃ name, (step st op now).1.messages = [mkMsg Sender.bot (greetingText name) now] := by
  cases op with
  | send o =>
    simp only [step, handleSend]
    split
    · exact Or.inl List.prefix_rfl
    · split
      · exact Or.inl List.prefix_rfl
      · exact Or.inl (dispatchQuestion_extends st now st.input true o)
  | clickQuestion q o =>
    simp only [step, handleQuestionClick]
    split
    · exact Or.inl List.prefix_rfl
    · exact Or.inl (dispatchQuestion_extends st now q false o)
  | showFullTranscript =>
    simp only [step, handleShowTranscript]
    split
    · exact Or.inl List.prefix_rfl
    · split
      · exact Or.inl List.prefix_rfl
      · exact Or.inl ⟨_, rfl⟩
  | chooseMeeting mid o =>
    simp only [step, selectMeeting]
    split
    · exact Or.inl List.prefix_rfl
    · split
      · exact Or.inl List.prefix_rfl
      · cases o with
        | resp401 => exact Or.inl List.prefix_rfl
        | success t name => exact Or.inr ⟨name, rfl⟩
        | netError => exact Or.inl List.prefix_rfl
        | httpError => exact Or.inl List.prefix_rfl
  | loadMeetings o =>
    cases o <;> exact Or.inl List.prefix_rfl
  | typeInput s => exact Or.inl List.prefix_rfl
  | focusInput =>
    simp only [step]
    split <;> exact Or.inl List.prefix_rfl

theorem handleSend_ordinary_good (st : ChatState) (o : ChatOutcome) (now : Nat)
    (hL : st.isLoggedIn = true) (hin : jsTrim st.input ≠ [])
    (hq : isTranscriptQuery st.input = false) (ht : st.selectedTranscript ≠ [])
    (hg : o = ChatOutcome.netError ∨
      ∃ e a, o = ChatOutcome.resp false e a ∧ (e ≠ [] ∨ a ≠ [])) :
    ∃ b : Msg, b.sender = Sender.bot ∧
      (handleSend st o now).1 =
        { st with messages := st.messages ++ [mkMsg Sender.user st.input now, b],
                  input := [], suggestedQuestions := [] } := by
  have hqne : st.input ≠ [] := fun h => hin (by rw [h]; rfl)
  have hcore := transcriptCore_of_not_isTQ hqne hq
  have hEin := isEmpty_false_of_ne_nil hin
  have hEt := isEmpty_false_of_ne_nil ht
  rcases hg with rfl | ⟨e, a, rfl, hea⟩
  · refine ⟨mkMsg Sender.bot ollamaErrorText now, rfl, ?_⟩
    simp [handleSend, dispatchQuestion, askOllama, hL, hEin, hEt, hcore, hq,
      (by decide : ollamaErrorText.isEmpty = false)]
  · by_cases he : e = []
    · have ha : a ≠ [] := by
        rcases hea with hea | hea
        · exact absurd he hea
        · exact hea
      have hEe : e.isEmpty = true := by rw [he]; rfl
      have hEa : a.isEmpty = false := isEmpty_false_of_ne_nil ha
      refine ⟨mkMsg Sender.bot a now, rfl, ?_⟩
      simp [handleSend, dispatchQuestion, askOllama, hL, hEin, hEt, hcore, hq, hEe, hEa]
    · have hEe : e.isEmpty = false := isEmpty_false_of_ne_nil he
      refine ⟨mkMsg Sender.bot (errorHead ++ e) now, rfl, ?_⟩
      simp [handleSend, dispatchQuestion, askOllama, hL, hEin, hEt, hcore, hq, hEe,
        (rfl : (errorHead ++ e).isEmpty = false)]
      exact fun _ => he

/-- C9 (amended): submitting the same ordinary question twice in succession
with a loaded transcript — each call completing without a 401 and with a
non-empty reply, error payload, or thrown network error — leaves the
Transcript and the selected Meeting Reference unchanged and grows the
Conversation Log by exactly two messages (one user, one bot) on each
submission.  (The claim as stated — for every outcome — fails when a call
returns 401 or an empty reply, see the counterexample.) -/
theorem C9_amended (st : ChatState) (o1 o2 : ChatOutcome) (now1 now2 : Nat)
    (hL : st.isLoggedIn = true) (hin : jsTrim st.input ≠ [])
    (hq : isTranscriptQuery st.input = false) (ht : st.selectedTranscript ≠ [])
    (hg1 : o1 = ChatOutcome.netError ∨
      ∃ e a, o1 = ChatOutcome.resp false e a ∧ (e ≠ [] ∨ a ≠ []))
    (hg2 : o2 = ChatOutcome.netError ∨
      ∃ e a, o2 = ChatOutcome.resp false e a ∧ (e ≠ [] ∨ a ≠ [])) :
    ∃ b1 b2 : Msg, b1.sender = Sender.bot ∧ b2.sender = Sender.bot ∧
      (handleSend st o1 now1).1.selectedTranscript = st.selectedTranscript ∧
      (handleSend st o1 now1).1.selectedMeeting = st.selectedMeeting ∧
      (handleSend st o1 now1).1.messages =
        st.messages ++ [mkMsg Sender.user st.input now1, b1] ∧
      (handleSend { (handleSend st o1 now1).1 with input := st.input } o2
          now2).1.selectedTranscript = st.selectedTranscript ∧
      (handleSend { (handleSend st o1 now1).1 with input := st.input } o2
          now2).1.selectedMeeting = st.selectedMeeting ∧
      (handleSend { (handleSend st o1 now1).1 with input := st.input } o2
          now2).1.messages =
        (handleSend st o1 now1).1.messages ++ [mkMsg Sender.user st.input now2, b2] := by
  obtain ⟨b1, hb1, hst1⟩ := handleSend_ordinary_good st o1 now1 hL hin hq ht hg1
  have hmid : ({ (handleSend st o1 now1).1 with input := st.input } : ChatState) =
      { st with messages := st.messages ++ [mkMsg Sender.user st.input now1, b1],
                suggestedQuestions := [] } := by
    rw [hst1]
  obtain ⟨b2, hb2, hst2⟩ :=
    handleSend_ordinary_good
      { st with messages := st.messages ++ [mkMsg Sender.user st.input now1, b1],
                suggestedQuestions := [] }
      o2 now2 hL hin hq ht hg2
  refine ⟨b1, b2, hb1, hb2, ?_, ?_, ?_, ?_, ?_, ?_⟩
  · rw [hst1]
  · rw [hst1]
  · rw [hst1]
  · rw [hmid, hst2]
  · rw [hmid, hst2]
  · rw [hmid, hst2, hst1]

/-- C9 counterexample: with a loaded transcript and the ordinary question
`"hello"`, a submission whose call returns 401 grows the log by one message
(the user's), not two, refuting the claim as stated. -/
theorem C9_counterexample_grows_by_one :
    (handleSend
        { isLoggedIn := true, token := some ("t".toList), userCred := some ("u".toList),
          meetings := [], selectedMeeting := "1".toList, selectedTranscript := "T".toList,
          suggestedQuestions := [], messages := [], input := "hello".toList }
        (ChatOutcome.resp true [] []) 0).1.messages.length = 1 ∧ (1 : Nat) ≠ 2 := by
  refine ⟨by decide, by decide⟩

/-- C9 witness: the amended theorem applied at a concrete state, the first
call replying normally and the second failing with a network error. -/
theorem C9_witness :
    ({ isLoggedIn := true, token := some ("t".toList), userCred := some ("u".toList),
       meetings := [], selectedMeeting := "2".toList, selectedTranscript := "T".toList,
       suggestedQuestions := [], messages := [], input := "hello".toList,
       : ChatState }).isLoggedIn = true ∧
    jsTrim ("hello".toList) ≠ [] ∧
    isTranscriptQuery ("hello".toList) = false ∧
    "T".toList ≠ ([] : List Char) ∧
    (ChatOutcome.resp false [] ("fine".toList) = ChatOutcome.netError ∨
      ∃ e a, ChatOutcome.resp false [] ("fine".toList) = ChatOutcome.resp false e a ∧
        (e ≠ [] ∨ a ≠ [])) ∧
    (ChatOutcome.netError = ChatOutcome.netError ∨
      ∃ e a, ChatOutcome.netError = ChatOutcome.resp false e a ∧ (e ≠ [] ∨ a ≠ [])) ∧
    (∃ b1 b2 : Msg, b1.sender = Sender.bot ∧ b2.sender = Sender.bot ∧
      (handleSend
          { isLoggedIn := true, token := some ("t".toList), userCred := some ("u".toList),
            meetings := [], selectedMeeting := "2".toList, selectedTranscript := "T".toList,
            suggestedQuestions := [], messages := [], input := "hello".toList }
          (ChatOutcome.resp false [] ("fine".toList)) 1).1.selectedTranscript = "T".toList ∧
      (handleSend
          { isLoggedIn := true, token := some ("t".toList), userCred := some ("u".toList),
            meetings := [], selectedMeeting := "2".toList, selectedTranscript := "T".toList,
            suggestedQuestions := [], messages := [], input := "hello".toList }
          (ChatOutcome.resp false [] ("fine".toList)) 1).1.selectedMeeting = "2".toList ∧
      (handleSend
          { isLoggedIn := true, token := some ("t".toList), userCred := some ("u".toList),
            meetings := [], selectedMeeting := "2".toList, selectedTranscript := "T".toList,
            suggestedQuestions := [], messages := [], input := "hello".toList }
          (ChatOutcome.resp false [] ("fine".toList)) 1).1.messages =
        [] ++ [mkMsg Sender.user ("hello".toList) 1, b1] ∧
      (handleSend
          { (handleSend
              { isLoggedIn := true, token := some ("t".toList),
                userCred := some ("u".toList), meetings := [],
                selectedMeeting := "2".toList, selectedTranscript := "T".toList,
                suggestedQuestions := [], messages := [], input := "hello".toList }
              (ChatOutcome.resp false [] ("fine".toList)) 1).1 with
            input := "hello".toList } ChatOutcome.netError 2).1.selectedTranscript =
        "T".toList ∧
      (handleSend
          { (handleSend
              { isLoggedIn := true, token := some ("t".toList),
                userCred := some ("u".toList), meetings := [],
                selectedMeeting := "2".toList, selectedTranscript := "T".toList,
                suggestedQuestions := [], messages := [], input := "hello".toList }
              (ChatOutcome.resp false [] ("fine".toList)) 1).1 with
            input := "hello".toList } ChatOutcome.netError 2).1.selectedMeeting =
        "2".toList ∧
      (handleSend
          { (handleSend
              { isLoggedIn := true, token := some ("t".toList),
                userCred := some ("u".toList), meetings := [],
                selectedMeeting := "2".toList, selectedTranscript := "T".toList,
                suggestedQuestions := [], messages := [], input := "hello".toList }
              (ChatOutcome.resp false [] ("fine".toList)) 1).1 with
            input := "hello".toList } ChatOutcome.netError 2).1.messages =
        (handleSend
            { isLoggedIn := true, token := some ("t".toList), userCred := some ("u".toList),
              meetings := [], selectedMeeting := "2".toList,
              selectedTranscript := "T".toList, suggestedQuestions := [], messages := [],
              input := "hello".toList }
            (ChatOutcome.resp false [] ("fine".toList)) 1).1.messages ++
          [mkMsg Sender.user ("hello".toList) 2, b2]) :=
  ⟨rfl, by decide, by decide, by decide, Or.inr ⟨[], "fine".toList, rfl, Or.inr (by decide)⟩,
    Or.inl rfl,
    C9_amended
      { isLoggedIn := true, token := some ("t".toList), userCred := some ("u".toList),
        meetings := [], selectedMeeting := "2".toList, selectedTranscript := "T".toList,
        suggestedQuestions := [], messages := [], input := "hello".toList }
      (ChatOutcome.resp false [] ("fine".toList)) ChatOutcome.netError 1 2 rfl (by decide)
      (by decide) (by decide) (Or.inr ⟨[], "fine".toList, rfl, Or.inr (by decide)⟩)
      (Or.inl rfl)⟩

theorem pairUp_mem (f : List Msg) (qa : QA) (h : qa ∈ pairUp f) :
    (∃ m, m ∈ f ∧ m.text = qa.question) ∧ (∃ m, m ∈ f ∧ m.text = qa.answer) := by
  induction f using pairUp.induct with
  | case1 a b rest ih =>
    rw [pairUp] at h
    rcases List.mem_cons.mp h with h0 | h0
    · subst h0
      exact ⟨⟨a, by simp, rfl⟩, ⟨b, by simp, rfl⟩⟩
    · obtain ⟨⟨m1, hm1, ht1⟩, ⟨m2, hm2, ht2⟩⟩ := ih h0
      exact ⟨⟨m1, by simp [hm1], ht1⟩, ⟨m2, by simp [hm2], ht2⟩⟩
  | case2 f h2 =>
    rw [pairUp.eq_def] at h
    split at h
    · exact absurd rfl (h2 _ _ _)
    · exact absurd h (List.not_mem_nil qa)

theorem mem_filteredMessages {m : Msg} {msgs : List Msg} (h : m ∈ filteredMessages msgs) :
    m ∈ msgs ∧ m.sender = Sender.user ∧ thanksTexts.contains (jsLower m.text) = false := by
  rw [filteredMessages] at h
  have := List.mem_filter.mp h
  refine ⟨this.1, ?_, ?_⟩
  · have h1 := this.2
    simp only [Bool.and_eq_true, beq_iff_eq] at h1
    exact h1.1
  · have h1 := this.2
    simp only [Bool.and_eq_true, Bool.not_eq_true'] at h1
    exact h1.2

/-- C10 (amended): in every chat-query request transmitted to the external
answer endpoint, each question string and each answer string of the
prior-Q/A-pairs history is the text of a user-sender message from the
Conversation Log whose lowercased text is not exactly `thanks`, `thank you`
or `thank u` — bot-sender texts never enter the history.  (The claim as
stated — no history string has *trimmed*, lowercased text equal to those
phrases — fails: the filter does not trim, so a message like `" thanks"`
passes it; see the counterexample.) -/
theorem C10_amended (transcript : List Char) (msgs : List Msg) (question : List Char)
    (o : ChatOutcome) (r : ChatRequest)
    (hr : (askOllama transcript msgs question o).request = some r) :
    ∀ qa ∈ r.chat_history,
      (∃ m, m ∈ msgs ∧ m.sender = Sender.user ∧ m.text = qa.question ∧
        thanksTexts.contains (jsLower m.text) = false) ∧
      (∃ m, m ∈ msgs ∧ m.sender = Sender.user ∧ m.text = qa.answer ∧
        thanksTexts.contains (jsLower m.text) = false) := by
  have hhist : r.chat_history = pairUp (filteredMessages msgs) := by
    rw [askOllama] at hr
    by_cases h1 : transcript.isEmpty
    · rw [if_pos h1] at hr
      exact absurd hr (by simp)
    · rw [if_neg h1] at hr
      by_cases h2 : transcriptCore (jsLower (jsTrim question))
      · rw [if_pos h2] at hr
        exact absurd hr (by simp)
      · rw [if_neg h2] at hr
        cases o with
        | netError =>
          simp only [Option.some.injEq] at hr
          rw [← hr]
        | resp s e a =>
          cases s with
          | true =>
            simp only [Option.some.injEq] at hr
            rw [← hr]
          | false =>
            by_cases he : e.isEmpty <;> simp only [he, if_true, if_false,
              Bool.false_eq_true, Option.some.injEq] at hr <;> rw [← hr]
    -- in every branch the transmitted history is the paired-up filtered list
  rw [hhist]
  intro qa hqa
  obtain ⟨⟨m1, hm1, ht1⟩, ⟨m2, hm2, ht2⟩⟩ := pairUp_mem _ qa hqa
  obtain ⟨hmem1, hs1, hth1⟩ := mem_filteredMessages hm1
  obtain ⟨hmem2, hs2, hth2⟩ := mem_filteredMessages hm2
  exact ⟨⟨m1, hmem1, hs1, ht1, hth1⟩, ⟨m2, hmem2, hs2, ht2, hth2⟩⟩

/-- C10 counterexample: the user message `" thanks"` (leading space) passes
the untrimmed filter and is transmitted in the history, yet its trimmed,
lowercased text is exactly `thanks` — refuting the claim as stated. -/
theorem C10_counterexample_untrimmed_filter :
    (askOllama ("T".toList)
        [mkMsg Sender.user (" thanks".toList) 0, mkMsg Sender.user ("ok".toList) 1]
        ("what happened".toList) (ChatOutcome.resp false [] ("ans".toList))).request =
      some ⟨"T".toList, "what happened".toList, [⟨" thanks".toList, "ok".toList⟩],
        modelNameText⟩ ∧
    thanksTexts.contains (jsLower (jsTrim (" thanks".toList))) = true := by
  refine ⟨by decide, by decide⟩

/-- C10 witness: the amended theorem applied to a concrete request carrying a
one-pair history. -/
theorem C10_witness :
    (askOllama ("T".toList)
        [mkMsg Sender.user ("q1".toList) 0, mkMsg Sender.user ("a1".toList) 1]
        ("why".toList) (ChatOutcome.resp false [] ("x".toList))).request =
      some ⟨"T".toList, "why".toList, [⟨"q1".toList, "a1".toList⟩], modelNameText⟩ ∧
    (∀ qa ∈ (ChatRequest.mk ("T".toList) ("why".toList)
        [⟨"q1".toList, "a1".toList⟩] modelNameText).chat_history,
      (∃ m, m ∈ [mkMsg Sender.user ("q1".toList) 0, mkMsg Sender.user ("a1".toList) 1] ∧
        m.sender = Sender.user ∧ m.text = qa.question ∧
        thanksTexts.contains (jsLower m.text) = false) ∧
      (∃ m, m ∈ [mkMsg Sender.user ("q1".toList) 0, mkMsg Sender.user ("a1".toList) 1] ∧
        m.sender = Sender.user ∧ m.text = qa.answer ∧
        thanksTexts.contains (jsLower m.text) = false)) :=
  ⟨by decide,
    C10_amended ("T".toList)
      [mkMsg Sender.user ("q1".toList) 0, mkMsg Sender.user ("a1".toList) 1]
      ("why".toList) (ChatOutcome.resp false [] ("x".toList))
      ⟨"T".toList, "why".toList, [⟨"q1".toList, "a1".toList⟩], modelNameText⟩
      (by decide)⟩
